import Mathlib

/-!
Shallow embedding of the session-lifecycle core of the translator
repository: the thread-safe audio ring buffer (src/buffer_thread.py,
class AudioBuffer), the session-start retry wrapper and call lifecycle
(src/src/agent.py), the health/readiness state (src/src/health.py), and
the patched tool-result builder (src/src/plugin_patch.py).
-/

namespace Translator

/-!  AudioBuffer (src/buffer_thread.py).

The class keeps a deque of PCM chunks (numpy int16 arrays, modelled as
`List Int`) plus a closed flag.  `write` appends a copy of the chunk and
silently drops it when closed; `read` pops samples across chunks, splitting
the front chunk when it is larger than requested and zero-filling on
underrun; `clear` empties the deque.  The mutex only serialises the call
bodies, each of which is sequential, so the functions below are the
per-call semantics.
-/

structure AudioBuffer where
  buffer : List (List Int)
  closed : Bool
deriving DecidableEq

/-- A freshly constructed `AudioBuffer()`: empty deque, not closed. -/
def AudioBuffer.empty : AudioBuffer := ⟨[], false⟩

/-- `AudioBuffer.write`: append a copy of `data` unless the buffer is closed. -/
def AudioBuffer.write (st : AudioBuffer) (data : List Int) : AudioBuffer :=
  if st.closed then st else { st with buffer := st.buffer ++ [data] }

/-- The `while samples_needed > 0 and self.buffer:` loop inside
`AudioBuffer.read`: first component is the list of parts collected in
`out_data`, second the deque left behind. -/
def readLoop : List (List Int) → Nat → List (List Int) × List (List Int)
  | chunks, 0 => ([], chunks)
  | [], _ + 1 => ([], [])
  | chunk :: rest, n + 1 =>
    if chunk.length > n + 1 then
      ([chunk.take (n + 1)], chunk.drop (n + 1) :: rest)
    else
      let res := readLoop rest (n + 1 - chunk.length)
      (chunk :: res.1, res.2)

/-- `AudioBuffer.read`: pop `num_samples` samples across the queued chunks;
if `out_data` stayed empty return pure silence, otherwise concatenate the
parts and zero-fill a short result (buffer underrun).  A total function:
it never blocks and never raises. -/
def AudioBuffer.read (st : AudioBuffer) (num_samples : Nat) : List Int × AudioBuffer :=
  let res := readLoop st.buffer num_samples
  let st' : AudioBuffer := { st with buffer := res.2 }
  let out : List Int :=
    if res.1.isEmpty then
      List.replicate num_samples 0
    else
      let result := res.1.flatten
      if result.length < num_samples then
        result ++ List.replicate (num_samples - result.length) 0
      else
        result
  (out, st')

/-- `AudioBuffer.clear`: atomically empty the deque. -/
def AudioBuffer.clear (st : AudioBuffer) : AudioBuffer :=
  { st with buffer := [] }

/-- A sequence of `write` calls, oldest first. -/
def AudioBuffer.writeAll (st : AudioBuffer) (datas : List (List Int)) : AudioBuffer :=
  datas.foldl AudioBuffer.write st

/-!  Retry wrapper `_start_session_with_retry` (src/src/agent.py).

`session.start` is modelled by a function `start : Nat → Option E`
giving, for each 0-indexed attempt, `none` when the attempt succeeds and
`some e` when it raises `e`.  The wrapper is rendered as the trace of its
observable actions plus its outcome: `Except.ok ()` when some attempt
succeeded, `Except.error lastError` for the final `RuntimeError`, which
carries the accumulated `last_error` (an `Option`, `none` only when the
loop never ran). -/

inductive RetryEvent where
  | startAttempt (attempt : Nat)
  | backoffSleep (seconds : ℚ)
deriving DecidableEq

def RetryEvent.isStart : RetryEvent → Bool
  | .startAttempt _ => true
  | _ => false

def RetryEvent.isSleep : RetryEvent → Bool
  | .backoffSleep _ => true
  | _ => false

/-- The sleep durations of a retry trace, in order. -/
def sleepDurations (evs : List RetryEvent) : List ℚ :=
  evs.filterMap fun e =>
    match e with
    | .backoffSleep s => some s
    | _ => none

/-- The `for attempt in range(cfg.max_retries)` loop of
`_start_session_with_retry`: `remaining` iterations left, current
0-indexed `attempt`, accumulated `last_error`.  On a failed attempt the
wait is `backoffBase ^ attempt`, slept only when `attempt` is not the last
one (`attempt < maxRetries - 1`). -/
def retryLoop {E : Type} (maxRetries : Nat) (backoffBase : ℚ) (start : Nat → Option E) :
    Nat → Nat → Option E → List RetryEvent × Except (Option E) Unit
  | 0, _, lastError => ([], .error lastError)
  | remaining + 1, attempt, _ =>
    match start attempt with
    | none => ([.startAttempt attempt], .ok ())
    | some e =>
      let wait := backoffBase ^ attempt
      let rest := retryLoop maxRetries backoffBase start remaining (attempt + 1) (some e)
      if attempt < maxRetries - 1 then
        (.startAttempt attempt :: .backoffSleep wait :: rest.1, rest.2)
      else
        (.startAttempt attempt :: rest.1, rest.2)

/-- `_start_session_with_retry` (src/src/agent.py): up to `maxRetries`
attempts with exponential backoff. -/
def start_session_with_retry {E : Type} (maxRetries : Nat) (backoffBase : ℚ)
    (start : Nat → Option E) : List RetryEvent × Except (Option E) Unit :=
  retryLoop maxRetries backoffBase start maxRetries 0 none

/-!  Call lifecycle (src/src/agent.py): greeting, goodbye, tool-triggered
end-call handler, and the wait/teardown section of `entrypoint`. -/

/-- The configuration fields of `CONFIG.agent` the lifecycle reads. -/
structure AgentConfig where
  greeting : String
  greeting_delay_s : ℚ
  goodbye_delay_s : ℚ
  max_call_duration_s : ℚ

/-- Observable lifecycle actions. -/
inductive LifeEvent where
  | generateReply (instructions : String)
  | sleepFor (seconds : ℚ)
  | markReady
  | markNotReady
  | setEndEvent
  | sessionCloseAttempt
  | closeErrorLogged
deriving DecidableEq

def LifeEvent.isReply : LifeEvent → Bool
  | .generateReply _ => true
  | _ => false

/-- Number of `generate_reply` dispatches in a trace. -/
def countReplies (evs : List LifeEvent) : Nat :=
  evs.countP LifeEvent.isReply

/-- The message `_send_goodbye` chooses for each reason. -/
def goodbyeMessage (reason : String) : String :=
  if reason = "timeout" then
    "Die maximale Gesprächsdauer ist leider erreicht. Lass uns gerne beim nächsten Mal weitermachen. Ciao!"
  else if reason = "error" then
    "Entschuldige, da gibt\x27s gerade ein technisches Problem. Wir melden uns bei dir. Bis dann!"
  else
    "Alles klar, mach\x27s gut!"

/-- `_send_goodbye` (src/src/agent.py): dispatch the reason-specific
goodbye, then sleep `goodbye_delay_s` so the goodbye still goes out.  A
raising `generate_reply` (`replyOk = false`) is caught inside the
function (warning logged) and skips the sleep. -/
def send_goodbye (cfg : AgentConfig) (replyOk : Bool) (reason : String) : List LifeEvent :=
  if replyOk then
    [.generateReply (goodbyeMessage reason), .sleepFor cfg.goodbye_delay_s]
  else
    [.generateReply (goodbyeMessage reason)]

/-- `_send_greeting` (src/src/agent.py): sleep `greeting_delay_s`, then
dispatch the greeting only if `end_event` is not set at that moment
(`endSet` is the value of `end_event.is_set()` when the delay elapses). -/
def send_greeting (cfg : AgentConfig) (endSet : Bool) : List LifeEvent :=
  .sleepFor cfg.greeting_delay_s :: (if endSet then [] else [.generateReply cfg.greeting])

/-- `_handle_end_call` (src/src/agent.py): wait 4 seconds with the line
open so the farewell audio reaches the user, mark not ready, set
`end_event`. -/
def handle_end_call : List LifeEvent :=
  [.sleepFor 4, .markNotReady, .setEndEvent]

/-- How the `asyncio.wait_for(end_event.wait(), max_call_duration_s)` step
ends: tool-triggered end, remote disconnect, the duration timeout, or some
other exception raised during the wait. -/
inductive EndTrigger where
  | toolEnd
  | disconnect
  | timeout
  | waitError (msg : String)
deriving DecidableEq

/-- Exceptions surfacing from the wait step. -/
inductive PyExc where
  | timeoutError
  | otherError (msg : String)
deriving DecidableEq

/-- Events produced during the wait itself, and how the wait step ends. -/
def waitStep : EndTrigger → List LifeEvent × Except PyExc Unit
  | .toolEnd => (handle_end_call, .ok ())
  | .disconnect => ([.setEndEvent], .ok ())
  | .timeout => ([], .error .timeoutError)
  | .waitError msg => ([], .error (.otherError msg))

/-- The wait/teardown section of `entrypoint` (src/src/agent.py): the
`try / except asyncio.TimeoutError / except Exception / finally` block
around the main wait.  The `finally` block marks not ready and attempts
`session.aclose()`, logging (never re-raising) a close failure
(`closeOk = false`).  Second component is what propagates out of
`entrypoint`. -/
def entrypointWaitPhase (cfg : AgentConfig) (trigger : EndTrigger)
    (goodbyeOk : Bool) (closeOk : Bool) : List LifeEvent × Except PyExc Unit :=
  let w := waitStep trigger
  let handled : List LifeEvent × Except PyExc Unit :=
    match w.2 with
    | .ok _ => ([], .ok ())
    | .error .timeoutError => (send_goodbye cfg goodbyeOk "timeout", .ok ())
    | .error (.otherError _) => (send_goodbye cfg goodbyeOk "error", .ok ())
  let closeEvents : List LifeEvent :=
    if closeOk then [.sessionCloseAttempt] else [.sessionCloseAttempt, .closeErrorLogged]
  (w.1 ++ handled.1 ++ .markNotReady :: closeEvents, handled.2)

/-!  Health state (src/src/health.py).

`_HealthState` keeps flags and session counters behind one lock; the
counters are Python ints, modelled as `Int` (the wall-clock `_start_time`
is omitted).  `set_ready` also maintains `_active_sessions`:
incremented on `True`, decremented with a floor of zero on `False`. -/

structure HealthState where
  alive : Bool
  ready : Bool
  startup : Bool
  total_sessions : Int
  active_sessions : Int
  failed_sessions : Int
deriving DecidableEq

/-- `_HealthState.set_ready` -/
def HealthState.set_ready (st : HealthState) (value : Bool) : HealthState :=
  if value then
    { st with ready := value, active_sessions := st.active_sessions + 1 }
  else
    { st with ready := value, active_sessions := max 0 (st.active_sessions - 1) }

/-- `_HealthState.increment_sessions` -/
def HealthState.increment_sessions (st : HealthState) : HealthState :=
  { st with total_sessions := st.total_sessions + 1 }

/-- `health.mark_ready`: `set_ready(True)` then `increment_sessions()`. -/
def mark_ready (st : HealthState) : HealthState :=
  (st.set_ready true).increment_sessions

/-- `health.mark_not_ready`: `set_ready(False)`. -/
def mark_not_ready (st : HealthState) : HealthState :=
  st.set_ready false

/-!  Patched tool-result builder (src/src/plugin_patch.py). -/

/-- A `chat_ctx` item as inspected by the patched function: its `type`,
and for `function_call_output` items the tool name, output and optional
`call_id` (`none` models Python `None`). -/
structure ChatItem where
  type : String
  name : String
  output : String
  call_id : Option String
deriving DecidableEq

/-- `types.FunctionResponse` as far as the patch populates it.  `id = none`
means the attribute was never assigned, i.e. the field is omitted from the
outgoing message (as opposed to being sent as an explicit null). -/
structure FunctionResponse where
  name : String
  response : String
  scheduling : Option String
  id : Option String
deriving DecidableEq

/-- Python truthiness of `msg.call_id` as tested by `if msg.call_id:`:
false for `None` and for the empty string. -/
def callIdTruthy : Option String → Bool
  | none => false
  | some s => !(s == "")

/-- Body of the item loop of `_patched_get_tool_results_for_realtime`:
build the response, attach `scheduling` when given, and in the
non-vertexai case assign `id` only when `call_id` is truthy. -/
def buildFunctionResponse (vertexai : Bool) (sched : Option String)
    (msg : ChatItem) : FunctionResponse :=
  let res : FunctionResponse :=
    { name := msg.name, response := msg.output, scheduling := sched, id := none }
  if vertexai then
    res
  else
    if callIdTruthy msg.call_id then { res with id := msg.call_id } else res

/-- `_patched_get_tool_results_for_realtime` (src/src/plugin_patch.py):
one `FunctionResponse` per `function_call_output` item, in order; `none`
when there are no function responses. -/
def patched_get_tool_results_for_realtime (items : List ChatItem)
    (vertexai : Bool) (sched : Option String) : Option (List FunctionResponse) :=
  let function_responses :=
    (items.filter fun m => m.type == "function_call_output").map
      (buildFunctionResponse vertexai sched)
  if function_responses.isEmpty then none else some function_responses

/-!  Helper lemmas about the audio buffer. -/

lemma readLoop_flatten_fst (chunks : List (List Int)) :
    ∀ k, ((readLoop chunks k).1).flatten = chunks.flatten.take k := by
  induction chunks with
  | nil => intro k; cases k <;> simp [readLoop]
  | cons chunk rest ih =>
    intro k
    cases k with
    | zero => simp [readLoop]
    | succ n =>
      by_cases h : chunk.length > n + 1
      · simp only [readLoop, if_pos h]
        simp [List.take_append_eq_append_take, Nat.sub_eq_zero_of_le (le_of_lt h)]
      · simp only [readLoop, if_neg h]
        push_neg at h
        simp [ih, List.take_append_eq_append_take, List.take_of_length_le h]

lemma readLoop_flatten_snd (chunks : List (List Int)) :
    ∀ k, ((readLoop chunks k).2).flatten = chunks.flatten.drop k := by
  induction chunks with
  | nil => intro k; cases k <;> simp [readLoop]
  | cons chunk rest ih =>
    intro k
    cases k with
    | zero => simp [readLoop]
    | succ n =>
      by_cases h : chunk.length > n + 1
      · simp only [readLoop, if_pos h]
        simp [List.drop_append_eq_append_drop, Nat.sub_eq_zero_of_le (le_of_lt h)]
      · simp only [readLoop, if_neg h]
        push_neg at h
        simp [ih, List.drop_append_eq_append_drop, List.drop_eq_nil_of_le h]

lemma read_fst (st : AudioBuffer) (k : Nat) :
    (st.read k).1 =
      st.buffer.flatten.take k ++ List.replicate (k - st.buffer.flatten.length) 0 := by
  have hflat : ((readLoop st.buffer k).1).flatten = st.buffer.flatten.take k :=
    readLoop_flatten_fst st.buffer k
  show (if (readLoop st.buffer k).1.isEmpty then
          List.replicate k 0
        else
          if ((readLoop st.buffer k).1.flatten).length < k then
            (readLoop st.buffer k).1.flatten ++
              List.replicate (k - ((readLoop st.buffer k).1.flatten).length) 0
          else
            (readLoop st.buffer k).1.flatten) =
      st.buffer.flatten.take k ++ List.replicate (k - st.buffer.flatten.length) 0
  rw [hflat]
  by_cases hemp : (readLoop st.buffer k).1.isEmpty
  · rw [if_pos hemp]
    rw [List.isEmpty_iff] at hemp
    rw [hemp] at hflat
    have htake : st.buffer.flatten.take k = [] := by simpa using hflat.symm
    rcases List.take_eq_nil_iff.mp htake with hk | hb
    · subst hk; simp
    · rw [hb]
      simp
  · rw [if_neg hemp]
    by_cases hlen : (st.buffer.flatten.take k).length < k
    · rw [if_pos hlen]
      have hTk : st.buffer.flatten.length < k := by
        rw [List.length_take] at hlen
        omega
      rw [List.take_of_length_le (le_of_lt hTk)]
    · rw [if_neg hlen]
      have hTk : k ≤ st.buffer.flatten.length := by
        rw [List.length_take] at hlen
        omega
      have hz : k - st.buffer.flatten.length = 0 := by omega
      rw [hz]
      simp

lemma read_snd (st : AudioBuffer) (k : Nat) :
    (st.read k).2 = { st with buffer := (readLoop st.buffer k).2 } := rfl

lemma writeAll_state (datas : List (List Int)) :
    ∀ st : AudioBuffer, st.closed = false →
      st.writeAll datas = ⟨st.buffer ++ datas, false⟩ := by
  induction datas with
  | nil =>
    intro st h
    cases st
    simp_all [AudioBuffer.writeAll]
  | cons d rest ih =>
    intro st h
    have hw : st.write d = ⟨st.buffer ++ [d], false⟩ := by
      cases st
      simp_all [AudioBuffer.write]
    calc st.writeAll (d :: rest)
        = (st.write d).writeAll rest := rfl
      _ = ⟨(st.write d).buffer ++ rest, false⟩ := by
          apply ih
          rw [hw]
      _ = ⟨st.buffer ++ (d :: rest), false⟩ := by
          rw [hw]
          simp

/-!  Claim theorems: audio buffer. -/

/-- C1: for every sequence of `AudioBuffer.write` calls on a fresh buffer
whose frames total `N` samples, a single subsequent `read N` (no
interleaved reads or clears) returns exactly those `N` samples in the
original order. -/
theorem c1_write_read_roundtrip (datas : List (List Int)) :
    ((AudioBuffer.empty.writeAll datas).read datas.flatten.length).1 = datas.flatten := by
  have hst : AudioBuffer.empty.writeAll datas = ⟨datas, false⟩ :=
    writeAll_state datas AudioBuffer.empty rfl
  rw [hst, read_fst]
  simp

/-- C2: whenever the buffer holds fewer than `k` samples,
`AudioBuffer.read k` returns a block of exactly `k` samples: all available
samples followed by a zero-filled tail.  `read` is a total function, so it
neither blocks nor raises. -/
theorem c2_read_underrun_zero_fill (st : AudioBuffer) (k : Nat)
    (h : st.buffer.flatten.length < k) :
    (st.read k).1 =
      st.buffer.flatten ++ List.replicate (k - st.buffer.flatten.length) 0 ∧
    ((st.read k).1).length = k := by
  rw [read_fst]
  constructor
  · rw [List.take_of_length_le (le_of_lt h)]
  · simp [List.length_take]
    omega

/-- Witness for C2 at a concrete underrun: buffer holds [1, 2], read 5. -/
theorem c2_read_underrun_zero_fill_witness :
    (AudioBuffer.mk [[1, 2]] false).buffer.flatten.length < 5 ∧
    ((AudioBuffer.mk [[1, 2]] false).read 5).1 = [1, 2, 0, 0, 0] ∧
    (((AudioBuffer.mk [[1, 2]] false).read 5).1).length = 5 := by
  have h := c2_read_underrun_zero_fill (AudioBuffer.mk [[1, 2]] false) 5 (by decide)
  refine ⟨by decide, ?_, h.2⟩
  rw [h.1]
  decide

/-- C10: `AudioBuffer.read k` consumes precisely a prefix: afterwards the
buffer holds exactly the original queued samples with the first
`min k T` removed, in order (nothing dropped, duplicated or reordered);
the returned block is that prefix plus the zero-filled deficit; the closed
flag is untouched. -/
theorem c10_read_consumes_prefix (st : AudioBuffer) (k : Nat) :
    ((st.read k).2).buffer.flatten = st.buffer.flatten.drop k ∧
    (st.read k).1 =
      st.buffer.flatten.take k ++ List.replicate (k - st.buffer.flatten.length) 0 ∧
    ((st.read k).2).closed = st.closed := by
  refine ⟨?_, read_fst st k, ?_⟩
  · rw [read_snd]
    exact readLoop_flatten_snd st.buffer k
  · rw [read_snd]

/-!  Claim theorems: retry wrapper. -/

/-- C3 counterexample: `max_retries = 3`, `backoff_base_s = 2`, start
failing twice then succeeding.  The code sleeps
`backoff_base_s ^ attempt` with `attempt` 0-indexed, hence 1 s after the
first failure and 2 s after the second — not the claimed 2 s and 4 s. -/
theorem c3_counterexample :
    sleepDurations
        (start_session_with_retry 3 2
          (fun i => if i < 2 then some "boom" else none)).1 ≠ [2, 4] ∧
    sleepDurations
        (start_session_with_retry 3 2
          (fun i => if i < 2 then some "boom" else none)).1 = [1, 2] := by
  constructor <;> decide

/-- C3 amended: with `max_retries = 3`, `backoff_base_s = 2` and a start
function failing twice then succeeding, the wrapper succeeds on the 3rd
attempt having slept 1 s after the first failure and 2 s after the second
(`backoff_base_s ^ attempt`, attempt 0-indexed). -/
theorem c3_retry_backoff_trace :
    start_session_with_retry 3 2 (fun i => if i < 2 then some "boom" else none) =
      ([.startAttempt 0, .backoffSleep 1, .startAttempt 1, .backoffSleep 2,
        .startAttempt 2], .ok ()) := by
  rfl

/-- C4: with `max_retries = 2` and an always-failing start function the
wrapper invokes start exactly twice, sleeps exactly once (never after the
last attempt), and raises carrying the last underlying error (the one from
attempt 1). -/
theorem c4_retry_exhaustion {E : Type} (backoffBase : ℚ) (start : Nat → Option E)
    (h : ∀ i, start i ≠ none) :
    (start_session_with_retry 2 backoffBase start).1.countP RetryEvent.isStart = 2 ∧
    (start_session_with_retry 2 backoffBase start).1.countP RetryEvent.isSleep = 1 ∧
    (start_session_with_retry 2 backoffBase start).2 = .error (start 1) := by
  rcases h0 : start 0 with _ | e0
  · exact absurd h0 (h 0)
  rcases h1 : start 1 with _ | e1
  · exact absurd h1 (h 1)
  simp [start_session_with_retry, retryLoop, h0, h1, RetryEvent.isStart, RetryEvent.isSleep]

/-- Witness for C4: base 2 and the constant failure `some "err"`. -/
theorem c4_retry_exhaustion_witness :
    (start_session_with_retry 2 2 (fun _ => some "err")).1.countP RetryEvent.isStart = 2 ∧
    (start_session_with_retry 2 2 (fun _ => some "err")).1.countP RetryEvent.isSleep = 1 ∧
    (start_session_with_retry 2 2 (fun _ => some "err")).2 = .error (some "err") := by
  have h := c4_retry_exhaustion 2 (fun _ => some "err") (fun i => by simp)
  exact ⟨h.1, h.2.1, h.2.2⟩

/-!  Claim theorems: lifecycle. -/

/-- C5: exactly on the max-duration timeout (not on tool-triggered end or
remote disconnect) exactly one goodbye instruction is dispatched, followed
by a `goodbye_delay_s` sleep before the teardown; on tool-triggered end no
goodbye is generated by the lifecycle but the 4 s grace delay is still
honored. -/
theorem c5_goodbye_on_timeout_only (cfg : AgentConfig) (closeOk : Bool) :
    countReplies (entrypointWaitPhase cfg .timeout true closeOk).1 = 1 ∧
    (entrypointWaitPhase cfg .timeout true closeOk).1.take 3 =
      [.generateReply (goodbyeMessage "timeout"), .sleepFor cfg.goodbye_delay_s,
       .markNotReady] ∧
    countReplies (entrypointWaitPhase cfg .toolEnd true closeOk).1 = 0 ∧
    countReplies (entrypointWaitPhase cfg .disconnect true closeOk).1 = 0 ∧
    LifeEvent.sleepFor 4 ∈ (entrypointWaitPhase cfg .toolEnd true closeOk).1 := by
  cases closeOk <;>
    simp [entrypointWaitPhase, waitStep, send_goodbye, handle_end_call, countReplies,
      LifeEvent.isReply]

/-- C6: if the end event is set by the time the greeting delay elapses, no
greeting instruction is ever dispatched; the greeting goes out exactly
when no termination has been requested at that point. -/
theorem c6_greeting_skipped_on_termination (cfg : AgentConfig) :
    countReplies (send_greeting cfg true) = 0 ∧
    send_greeting cfg false =
      [.sleepFor cfg.greeting_delay_s, .generateReply cfg.greeting] ∧
    ∀ endSet : Bool,
      (LifeEvent.generateReply cfg.greeting ∈ send_greeting cfg endSet ↔ endSet = false) := by
  refine ⟨by simp [send_greeting, countReplies, LifeEvent.isReply], by simp [send_greeting], ?_⟩
  intro endSet
  cases endSet <;> simp [send_greeting]

/-- C7: an exception raised during the active-call wait is caught and
routed into the goodbye path with reason "error"; nothing propagates out
of the wait/teardown section for any trigger; the teardown (mark not
ready, attempt session close) always runs, and a failing close is
swallowed. -/
theorem c7_wait_error_contained (cfg : AgentConfig) (msg : String)
    (goodbyeOk closeOk : Bool) :
    (entrypointWaitPhase cfg (.waitError msg) goodbyeOk closeOk).2 = .ok () ∧
    LifeEvent.generateReply (goodbyeMessage "error") ∈
      (entrypointWaitPhase cfg (.waitError msg) goodbyeOk closeOk).1 ∧
    LifeEvent.markNotReady ∈ (entrypointWaitPhase cfg (.waitError msg) goodbyeOk closeOk).1 ∧
    LifeEvent.sessionCloseAttempt ∈
      (entrypointWaitPhase cfg (.waitError msg) goodbyeOk closeOk).1 ∧
    ∀ trigger : EndTrigger,
      (entrypointWaitPhase cfg trigger goodbyeOk closeOk).2 = .ok () := by
  refine ⟨?_, ?_, ?_, ?_, ?_⟩
  · cases goodbyeOk <;> cases closeOk <;> rfl
  · cases goodbyeOk <;> cases closeOk <;>
      simp [entrypointWaitPhase, waitStep, send_goodbye]
  · cases goodbyeOk <;> cases closeOk <;>
      simp [entrypointWaitPhase, waitStep, send_goodbye]
  · cases goodbyeOk <;> cases closeOk <;>
      simp [entrypointWaitPhase, waitStep, send_goodbye]
  · intro trigger
    cases trigger <;> cases goodbyeOk <;> cases closeOk <;> rfl

/-!  Claim theorems: health state. -/

/-- C8 counterexample: with two sessions counted active, a second
`mark_not_ready` decrements the active-session metric again, so the state
after two calls differs from the state after one. -/
theorem c8_counterexample :
    mark_not_ready (mark_not_ready ⟨true, true, true, 5, 2, 0⟩) ≠
      mark_not_ready ⟨true, true, true, 5, 2, 0⟩ := by
  decide

/-- C8 amended: a second consecutive `mark_not_ready` raises no error and
leaves the ready flag `false`, exactly as after one call; full state
equality (including the active-session metric, floored at zero and
decremented by every call) holds when at most one session is counted
active beforehand. -/
theorem c8_mark_not_ready_idempotent (st : HealthState)
    (h : st.active_sessions ≤ 1) :
    mark_not_ready (mark_not_ready st) = mark_not_ready st ∧
    (mark_not_ready (mark_not_ready st)).ready = false ∧
    ∀ s : HealthState, (mark_not_ready (mark_not_ready s)).ready = (mark_not_ready s).ready := by
  refine ⟨?_, by simp [mark_not_ready, HealthState.set_ready], ?_⟩
  · simp only [mark_not_ready, HealthState.set_ready, if_neg Bool.false_ne_true]
    congr 1
    omega
  · intro s
    simp [mark_not_ready, HealthState.set_ready]

/-- Witness for C8 at a concrete state with one active session. -/
theorem c8_mark_not_ready_idempotent_witness :
    mark_not_ready (mark_not_ready ⟨true, true, true, 5, 1, 0⟩) =
      mark_not_ready ⟨true, true, true, 5, 1, 0⟩ ∧
    (mark_not_ready (mark_not_ready ⟨true, true, true, 5, 1, 0⟩)).ready = false := by
  have h := c8_mark_not_ready_idempotent ⟨true, true, true, 5, 1, 0⟩ (by decide)
  exact ⟨h.1, h.2.1⟩

/-!  Claim theorems: plugin patch. -/

/-- C9: in the non-vertexai case the patched builder produces, for every
`function_call_output` item of the chat context, a function response whose
`id` field is set exactly when the originating `call_id` is present
(Python-truthy); when no call id was provided the field is omitted
entirely (`none`), never an explicit null. -/
theorem c9_call_id_set_iff_present (items : List ChatItem) (sched : Option String)
    (msg : ChatItem) (hmem : msg ∈ items) (hty : msg.type = "function_call_output") :
    ∃ rs, patched_get_tool_results_for_realtime items false sched = some rs ∧
      buildFunctionResponse false sched msg ∈ rs ∧
      (buildFunctionResponse false sched msg).id =
        (if callIdTruthy msg.call_id then msg.call_id else none) ∧
      ((buildFunctionResponse false sched msg).id ≠ none ↔
        callIdTruthy msg.call_id = true) := by
  have hfil : msg ∈ items.filter fun m => m.type == "function_call_output" :=
    List.mem_filter.mpr ⟨hmem, by simp [hty]⟩
  have hmap : buildFunctionResponse false sched msg ∈
      (items.filter fun m => m.type == "function_call_output").map
        (buildFunctionResponse false sched) :=
    List.mem_map_of_mem _ hfil
  have hne : ¬ ((items.filter fun m => m.type == "function_call_output").map
      (buildFunctionResponse false sched)).isEmpty := by
    rcases (items.filter fun m => m.type == "function_call_output").eq_nil_or_concat with
      hnil | _
    · rw [hnil] at hfil; exact absurd hfil (List.not_mem_nil msg)
    · simp only [List.isEmpty_iff, List.map_eq_nil_iff]
      intro hcon
      rw [hcon] at hfil
      exact absurd hfil (List.not_mem_nil msg)
  refine ⟨_, ?_, hmap, ?_, ?_⟩
  · simp only [patched_get_tool_results_for_realtime, if_neg hne]
  · by_cases hc : callIdTruthy msg.call_id <;>
      simp [buildFunctionResponse, hc]
  · by_cases hc : callIdTruthy msg.call_id
    · rcases hcid : msg.call_id with _ | s
      · rw [hcid] at hc; exact absurd hc (by simp [callIdTruthy])
      · rw [hcid] at hc
        simp [buildFunctionResponse, hc, hcid]
    · simp [buildFunctionResponse, hc]

/-- Witness for C9: a single function-call-output item with no call id;
its response carries no id field. -/
theorem c9_call_id_set_iff_present_witness :
    ∃ rs, patched_get_tool_results_for_realtime
        [⟨"function_call_output", "end_call", "done", none⟩] false none = some rs ∧
      buildFunctionResponse false none ⟨"function_call_output", "end_call", "done", none⟩ ∈ rs ∧
      (buildFunctionResponse false none
        ⟨"function_call_output", "end_call", "done", none⟩).id =
        (if callIdTruthy (none : Option String) then (none : Option String) else none) ∧
      ((buildFunctionResponse false none
        ⟨"function_call_output", "end_call", "done", none⟩).id ≠ none ↔
        callIdTruthy (none : Option String) = true) :=
  c9_call_id_set_iff_present [⟨"function_call_output", "end_call", "done", none⟩] none
    ⟨"function_call_output", "end_call", "done", none⟩ (by simp) rfl

end Translator
